import Mathlib

/-!
Shallow embedding of `src/keanus_candy/models/payment.py`.

Modelling conventions:
* Python `float` amounts and balances are modelled as `ℚ` (the program only
  compares, adds and subtracts amounts, all exact on the values used).
* `time.strftime(...)` is an external input: each operation takes the current
  timestamp string as an explicit parameter.
* `random.choice([True, True, True, False])` is modelled by an explicit draw
  index `draw : Fin 4` selecting into the list `successDraws`; a uniform pick
  of the index is exactly Python's `random.choice` on that 4-element list.
* `print` / `time.sleep` are side effects with no influence on state or
  results and are dropped.
* Python's `raise NotImplementedError` in the base class is modelled by an
  `Except` result carrying the error name; the subclass overrides are total
  functions returning `Bool × state`, so they can never raise.
-/

/-- One entry of `transaction_history`, as built by
`PaymentMethod.log_transaction` (payment.py lines 13–18). -/
structure TransactionRecord where
  method : String
  amount : ℚ
  status : String
  timestamp : String
deriving Repr, DecidableEq

/-- State of the base class `PaymentMethod` (payment.py lines 7–9). -/
structure PaymentMethod where
  method_name : String
  transaction_history : List TransactionRecord
deriving Repr, DecidableEq

/-- `PaymentMethod.log_transaction` (payment.py lines 11–20): appends one
record with the given timestamp to `transaction_history`. -/
def PaymentMethod.log_transaction (m : PaymentMethod) (amount : ℚ)
    (status timestamp : String) : PaymentMethod :=
  { m with transaction_history := m.transaction_history ++
      [{ method := m.method_name, amount := amount, status := status,
         timestamp := timestamp }] }

/-- `PaymentMethod.process_payment` (payment.py lines 22–24):
`raise NotImplementedError` for every amount. -/
def PaymentMethod.process_payment (_m : PaymentMethod) (_amount : ℚ) :
    Except String (Bool × PaymentMethod) :=
  Except.error "NotImplementedError"

/-- State of `CreditCard` (payment.py lines 30–34): base fields plus
card number, holder name and expiration date. -/
structure CreditCard where
  method_name : String
  transaction_history : List TransactionRecord
  card_number : String
  holder_name : String
  expiration_date : String
deriving Repr, DecidableEq

/-- `CreditCard.__init__` (payment.py lines 30–34): method name is
"Credit Card", history starts empty.  The Python default for
`expiration_date` is `"12/29"`; here it is passed explicitly. -/
def mkCreditCard (card_number holder_name expiration_date : String) :
    CreditCard :=
  { method_name := "Credit Card", transaction_history := [],
    card_number := card_number, holder_name := holder_name,
    expiration_date := expiration_date }

/-- Inherited `log_transaction` acting on a `CreditCard`. -/
def CreditCard.log_transaction (c : CreditCard) (amount : ℚ)
    (status timestamp : String) : CreditCard :=
  { c with transaction_history := c.transaction_history ++
      [{ method := c.method_name, amount := amount, status := status,
         timestamp := timestamp }] }

/-- `CreditCard.validate_card` (payment.py line 38):
`len(self.card_number) in (15, 16) and self.card_number.isdigit()`. -/
def CreditCard.validate_card (c : CreditCard) : Bool :=
  (c.card_number.length == 15 || c.card_number.length == 16) &&
    c.card_number.data.all Char.isDigit

/-- The list Python draws from: `random.choice([True, True, True, False])`
(payment.py line 53). -/
def successDraws : List Bool := [true, true, true, false]

/-- `CreditCard.process_payment` (payment.py lines 40–56). `draw` is the
index `random.choice` picks into `successDraws`. -/
def CreditCard.process_payment (c : CreditCard) (amount : ℚ) (draw : Fin 4)
    (timestamp : String) : Bool × CreditCard :=
  if amount ≤ 0 then
    (false, c.log_transaction amount "Failed" timestamp)
  else if c.validate_card = false then
    (false, c.log_transaction amount "Declined" timestamp)
  else
    let success := successDraws.get ⟨draw.val, draw.isLt⟩
    let status := if success then "Approved" else "Declined"
    (success, c.log_transaction amount status timestamp)

/-- State of `PayPal` (payment.py lines 62–65): base fields plus email and
mutable balance. -/
structure PayPal where
  method_name : String
  transaction_history : List TransactionRecord
  email : String
  balance : ℚ
deriving Repr, DecidableEq

/-- `PayPal.__init__` (payment.py lines 62–65): method name "PayPal",
empty history, balance 500.00. -/
def mkPayPal (email : String) : PayPal :=
  { method_name := "PayPal", transaction_history := [], email := email,
    balance := 500 }

/-- Inherited `log_transaction` acting on a `PayPal`. -/
def PayPal.log_transaction (p : PayPal) (amount : ℚ)
    (status timestamp : String) : PayPal :=
  { p with transaction_history := p.transaction_history ++
      [{ method := p.method_name, amount := amount, status := status,
         timestamp := timestamp }] }

/-- `PayPal.process_payment` (payment.py lines 67–83). -/
def PayPal.process_payment (p : PayPal) (amount : ℚ)
    (timestamp : String) : Bool × PayPal :=
  if amount ≤ 0 then
    (false, p.log_transaction amount "Failed" timestamp)
  else if p.balance < amount then
    (false, p.log_transaction amount "Insufficient Funds" timestamp)
  else
    let p' := { p with balance := p.balance - amount }
    (true, p'.log_transaction amount "Completed" timestamp)

/-! ## Claim theorems -/

/-- C1: for every amount with `0 < amount ≤ balance`,
`PayPal.process_payment` returns `true`, decrements the balance by exactly
the amount, and appends one log record with status "Completed". -/
theorem paypal_success_spec (p : PayPal) (amount : ℚ) (ts : String)
    (hpos : 0 < amount) (hle : amount ≤ p.balance) :
    (p.process_payment amount ts).1 = true ∧
    (p.process_payment amount ts).2.balance = p.balance - amount ∧
    (p.process_payment amount ts).2.transaction_history =
      p.transaction_history ++
        [{ method := p.method_name, amount := amount,
           status := "Completed", timestamp := ts }] := by
  have h1 : ¬ amount ≤ 0 := not_le.mpr hpos
  have h2 : ¬ p.balance < amount := not_lt.mpr hle
  simp [PayPal.process_payment, PayPal.log_transaction, h1, h2]

/-- C1 witness: the boundary case from the spec — a fresh wallet with
balance 500.00 processing exactly 500.00 succeeds and leaves balance 0. -/
theorem paypal_success_spec_witness :
    ((mkPayPal "user").process_payment 500 "2024-01-01 00:00:00").1 = true ∧
    ((mkPayPal "user").process_payment 500 "2024-01-01 00:00:00").2.balance
      = (mkPayPal "user").balance - 500 ∧
    ((mkPayPal "user").process_payment 500 "2024-01-01 00:00:00").2.transaction_history
      = (mkPayPal "user").transaction_history ++
        [{ method := (mkPayPal "user").method_name, amount := 500,
           status := "Completed", timestamp := "2024-01-01 00:00:00" }] :=
  paypal_success_spec (mkPayPal "user") 500 "2024-01-01 00:00:00"
    (by norm_num) (by simp [mkPayPal])

/-- C2: for every amount ≤ 0, `process_payment` on both `CreditCard` and
`PayPal` returns `false` and appends a record with status "Failed",
whatever the other fields hold. -/
theorem nonpositive_amount_fails (c : CreditCard) (p : PayPal) (amount : ℚ)
    (draw : Fin 4) (ts : String) (h : amount ≤ 0) :
    (c.process_payment amount draw ts).1 = false ∧
    (c.process_payment amount draw ts).2.transaction_history =
      c.transaction_history ++
        [{ method := c.method_name, amount := amount,
           status := "Failed", timestamp := ts }] ∧
    (p.process_payment amount ts).1 = false ∧
    (p.process_payment amount ts).2.transaction_history =
      p.transaction_history ++
        [{ method := p.method_name, amount := amount,
           status := "Failed", timestamp := ts }] := by
  simp [CreditCard.process_payment, PayPal.process_payment,
    CreditCard.log_transaction, PayPal.log_transaction, h]

/-- C2 witness: amount 0 on a concrete card (with balance-like fields
arbitrary) and a fresh wallet. -/
theorem nonpositive_amount_fails_witness :
    ((mkCreditCard "4111111111111111" "Keanu" "12/29").process_payment 0 0
        "2024-01-01 00:00:00").1 = false ∧
    ((mkCreditCard "4111111111111111" "Keanu" "12/29").process_payment 0 0
        "2024-01-01 00:00:00").2.transaction_history =
      (mkCreditCard "4111111111111111" "Keanu" "12/29").transaction_history ++
        [{ method := (mkCreditCard "4111111111111111" "Keanu" "12/29").method_name,
           amount := 0, status := "Failed", timestamp := "2024-01-01 00:00:00" }] ∧
    ((mkPayPal "user").process_payment 0 "2024-01-01 00:00:00").1 = false ∧
    ((mkPayPal "user").process_payment 0 "2024-01-01 00:00:00").2.transaction_history =
      (mkPayPal "user").transaction_history ++
        [{ method := (mkPayPal "user").method_name, amount := 0,
           status := "Failed", timestamp := "2024-01-01 00:00:00" }] :=
  nonpositive_amount_fails (mkCreditCard "4111111111111111" "Keanu" "12/29")
    (mkPayPal "user") 0 0 "2024-01-01 00:00:00" le_rfl

/-- C5: `validate_card` is `true` iff the card number has length exactly 15
or 16 and every character of it is a decimal digit. -/
theorem validate_card_iff (c : CreditCard) :
    c.validate_card = true ↔
      (c.card_number.length = 15 ∨ c.card_number.length = 16) ∧
        ∀ ch ∈ c.card_number.data, ch.isDigit = true := by
  simp [CreditCard.validate_card, List.all_eq_true]

/-- C8: calling `process_payment` on the base `PaymentMethod` raises
`NotImplementedError` for every amount: it produces no boolean and no log
record (the subclass overrides, by contrast, are total `Bool × state`
functions and cannot raise). -/
theorem base_process_payment_raises (m : PaymentMethod) (amount : ℚ) :
    m.process_payment amount = Except.error "NotImplementedError" := rfl

/-- C3: for every positive amount, a card failing the digit/length check is
declined: `process_payment` returns `false` and appends a record with
status "Declined". -/
theorem creditcard_invalid_declined (c : CreditCard) (amount : ℚ)
    (draw : Fin 4) (ts : String)
    (hpos : 0 < amount) (hinv : c.validate_card = false) :
    (c.process_payment amount draw ts).1 = false ∧
    (c.process_payment amount draw ts).2.transaction_history =
      c.transaction_history ++
        [{ method := c.method_name, amount := amount,
           status := "Declined", timestamp := ts }] := by
  have h1 : ¬ amount ≤ 0 := not_le.mpr hpos
  simp [CreditCard.process_payment, CreditCard.log_transaction, h1, hinv]

/-- C3 witness: the spec's example — the 12-digit number "411111111111"
fails the length check, so `process_payment 10` declines. -/
theorem creditcard_invalid_declined_witness :
    ((mkCreditCard "411111111111" "A. Smith" "12/29").process_payment 10 0
        "2024-01-01 00:00:00").1 = false ∧
    ((mkCreditCard "411111111111" "A. Smith" "12/29").process_payment 10 0
        "2024-01-01 00:00:00").2.transaction_history =
      (mkCreditCard "411111111111" "A. Smith" "12/29").transaction_history ++
        [{ method := (mkCreditCard "411111111111" "A. Smith" "12/29").method_name,
           amount := 10, status := "Declined",
           timestamp := "2024-01-01 00:00:00" }] :=
  creditcard_invalid_declined (mkCreditCard "411111111111" "A. Smith" "12/29")
    10 0 "2024-01-01 00:00:00" (by norm_num) (by decide)

/-- Helper: a freshly constructed wallet has nonnegative balance. -/
theorem mkPayPal_balance_nonneg (email : String) :
    0 ≤ (mkPayPal email).balance := by
  simp [mkPayPal]

/-- Helper: `process_payment` preserves nonnegativity of the balance, so
every wallet reachable from the constructor has `0 ≤ balance`. -/
theorem process_payment_balance_nonneg (p : PayPal) (amount : ℚ)
    (ts : String) (h : 0 ≤ p.balance) :
    0 ≤ (p.process_payment amount ts).2.balance := by
  unfold PayPal.process_payment PayPal.log_transaction
  split_ifs with h1 h2
  · exact h
  · exact h
  · have := not_lt.mp h2
    simpa using sub_nonneg.mpr this

/-- C4: for every amount exceeding the balance, `PayPal.process_payment`
returns `false`, appends a record with status "Insufficient Funds", and
leaves the balance unchanged.  The hypothesis `0 ≤ p.balance` holds for
every wallet the program can build (see `mkPayPal_balance_nonneg` and
`process_payment_balance_nonneg`); it makes `amount > balance` imply the
positivity needed to pass the first check. -/
theorem paypal_insufficient_funds (p : PayPal) (amount : ℚ) (ts : String)
    (hb : 0 ≤ p.balance) (h : p.balance < amount) :
    (p.process_payment amount ts).1 = false ∧
    (p.process_payment amount ts).2.balance = p.balance ∧
    (p.process_payment amount ts).2.transaction_history =
      p.transaction_history ++
        [{ method := p.method_name, amount := amount,
           status := "Insufficient Funds", timestamp := ts }] := by
  have h1 : ¬ amount ≤ 0 := not_le.mpr (lt_of_le_of_lt hb h)
  simp [PayPal.process_payment, PayPal.log_transaction, h1, h]

/-- C4 witness: a fresh wallet (balance 500) asked for 600. -/
theorem paypal_insufficient_funds_witness :
    ((mkPayPal "user").process_payment 600 "2024-01-01 00:00:00").1 = false ∧
    ((mkPayPal "user").process_payment 600 "2024-01-01 00:00:00").2.balance
      = (mkPayPal "user").balance ∧
    ((mkPayPal "user").process_payment 600 "2024-01-01 00:00:00").2.transaction_history
      = (mkPayPal "user").transaction_history ++
        [{ method := (mkPayPal "user").method_name, amount := 600,
           status := "Insufficient Funds",
           timestamp := "2024-01-01 00:00:00" }] :=
  paypal_insufficient_funds (mkPayPal "user") 600 "2024-01-01 00:00:00"
    (by simp [mkPayPal]) (by simp [mkPayPal]; norm_num)

/-- C6: every call to either `process_payment`, on every input and every
outcome, extends `transaction_history` by exactly one appended record: the
old history is a prefix, records appear in call order, none is removed or
reordered. -/
theorem process_payment_appends_one (c : CreditCard) (p : PayPal)
    (amount : ℚ) (draw : Fin 4) (ts : String) :
    (∃ r, (c.process_payment amount draw ts).2.transaction_history =
        c.transaction_history ++ [r]) ∧
    (∃ r, (p.process_payment amount ts).2.transaction_history =
        p.transaction_history ++ [r]) := by
  constructor
  · unfold CreditCard.process_payment CreditCard.log_transaction
    split_ifs <;> exact ⟨_, rfl⟩
  · unfold PayPal.process_payment PayPal.log_transaction
    split_ifs <;> exact ⟨_, rfl⟩

/-- C7: for a valid card and positive amount, the outcome is the drawn
element of the fixed list `[true, true, true, false]` (3 of the 4 equally
likely draws succeed), the returned boolean equals the drawn outcome, and
the logged status is "Approved" exactly when the draw succeeds, "Declined"
otherwise. -/
theorem creditcard_valid_draw (c : CreditCard) (amount : ℚ) (draw : Fin 4)
    (ts : String) (hpos : 0 < amount) (hval : c.validate_card = true) :
    (c.process_payment amount draw ts).1 =
      successDraws.get ⟨draw.val, draw.isLt⟩ ∧
    (c.process_payment amount draw ts).2.transaction_history =
      c.transaction_history ++
        [{ method := c.method_name, amount := amount,
           status := if successDraws.get ⟨draw.val, draw.isLt⟩ then
             "Approved" else "Declined", timestamp := ts }] ∧
    successDraws.count true = 3 ∧ successDraws.length = 4 := by
  have h1 : ¬ amount ≤ 0 := not_le.mpr hpos
  refine ⟨?_, ?_, by decide, by decide⟩ <;>
    simp [CreditCard.process_payment, CreditCard.log_transaction, h1, hval]

/-- C7 witness: a valid 16-digit card, amount 10, draw index 3 (the one
failing draw): returns `false` and logs "Declined". -/
theorem creditcard_valid_draw_witness :
    ((mkCreditCard "4111111111111111" "Keanu" "12/29").process_payment 10 3
        "2024-01-01 00:00:00").1 =
      successDraws.get ⟨(3 : Fin 4).val, (3 : Fin 4).isLt⟩ ∧
    ((mkCreditCard "4111111111111111" "Keanu" "12/29").process_payment 10 3
        "2024-01-01 00:00:00").2.transaction_history =
      (mkCreditCard "4111111111111111" "Keanu" "12/29").transaction_history ++
        [{ method := (mkCreditCard "4111111111111111" "Keanu" "12/29").method_name,
           amount := 10,
           status := if successDraws.get ⟨(3 : Fin 4).val, (3 : Fin 4).isLt⟩ then
             "Approved" else "Declined",
           timestamp := "2024-01-01 00:00:00" }] ∧
    successDraws.count true = 3 ∧ successDraws.length = 4 :=
  creditcard_valid_draw (mkCreditCard "4111111111111111" "Keanu" "12/29")
    10 3 "2024-01-01 00:00:00" (by norm_num) (by decide)

/-- C9: two-run noninterference of `expiration_date`.  Two cards identical
in every field except possibly `expiration_date`, run on the same amount
with the same random draw, return the same boolean and append the same log
record (hence the same status). -/
theorem expiration_date_noninterference (c1 c2 : CreditCard) (amount : ℚ)
    (draw : Fin 4) (ts : String)
    (hnum : c1.card_number = c2.card_number)
    (hname : c1.holder_name = c2.holder_name)
    (hmeth : c1.method_name = c2.method_name)
    (hhist : c1.transaction_history = c2.transaction_history) :
    (c1.process_payment amount draw ts).1 =
      (c2.process_payment amount draw ts).1 ∧
    (c1.process_payment amount draw ts).2.transaction_history =
      (c2.process_payment amount draw ts).2.transaction_history := by
  have hv : c1.validate_card = c2.validate_card := by
    simp [CreditCard.validate_card, hnum]
  unfold CreditCard.process_payment CreditCard.log_transaction
  rw [hv, hnum, hname, hmeth, hhist]
  constructor <;> split_ifs <;> rfl

/-- C9 witness: two cards differing only in `expiration_date` ("12/29" vs
"01/31"), same amount 10 and draw 0, agree on result and history. -/
theorem expiration_date_noninterference_witness :
    ((mkCreditCard "4111111111111111" "Keanu" "12/29").process_payment 10 0
        "2024-01-01 00:00:00").1 =
      ((mkCreditCard "4111111111111111" "Keanu" "01/31").process_payment 10 0
        "2024-01-01 00:00:00").1 ∧
    ((mkCreditCard "4111111111111111" "Keanu" "12/29").process_payment 10 0
        "2024-01-01 00:00:00").2.transaction_history =
      ((mkCreditCard "4111111111111111" "Keanu" "01/31").process_payment 10 0
        "2024-01-01 00:00:00").2.transaction_history :=
  expiration_date_noninterference
    (mkCreditCard "4111111111111111" "Keanu" "12/29")
    (mkCreditCard "4111111111111111" "Keanu" "01/31")
    10 0 "2024-01-01 00:00:00" rfl rfl rfl rfl

/-- C10: frame conditions.  `CreditCard.process_payment` changes no field
other than `transaction_history`; `PayPal.process_payment` changes no field
other than `transaction_history` and, exactly on the success path,
`balance` (which drops by the amount); on every failure path — including
amount ≤ 0 — the balance is unchanged. -/
theorem process_payment_frame (c : CreditCard) (p : PayPal) (amount : ℚ)
    (draw : Fin 4) (ts : String) :
    ((c.process_payment amount draw ts).2.card_number = c.card_number ∧
     (c.process_payment amount draw ts).2.holder_name = c.holder_name ∧
     (c.process_payment amount draw ts).2.expiration_date =
       c.expiration_date ∧
     (c.process_payment amount draw ts).2.method_name = c.method_name) ∧
    ((p.process_payment amount ts).2.email = p.email ∧
     (p.process_payment amount ts).2.method_name = p.method_name ∧
     (p.process_payment amount ts).2.balance =
       (if (p.process_payment amount ts).1 then p.balance - amount
        else p.balance)) := by
  constructor
  · unfold CreditCard.process_payment CreditCard.log_transaction
    split_ifs <;> exact ⟨rfl, rfl, rfl, rfl⟩
  · unfold PayPal.process_payment PayPal.log_transaction
    split_ifs <;> simp_all
